import Mathlib

/-!
# Verification of the MouseWont worker-pool scheduler and backend selection layer

Shallow embedding of the core of the repository:

* `ThreadPoolManager` (ThreadPoolManager.ts): the worker-pool task scheduler is
  modelled as a state machine.  The coordinator is single-threaded (all registry
  and timer bookkeeping happens on the event loop), so its behaviour is an
  interleaving of atomic handler executions; each handler of the source
  (`scheduleTask`, `handleWorkerMessage`, the per-task timeout callback,
  `shutdown`, `start`) becomes one step function on `PoolState`, and a run of
  the scheduler is a `List PoolEvent` folded through `step`.
* The batch dispatcher `generateBezierPaths` / `simulatePhysicsMovements`
  (same file) is embedded as a pure function over an environment recording the
  C++ module availability.  Worker-executed chunk tasks are modelled with
  their transport: `scheduleTask` ships `task.toString()` and worker.js's
  `evaluateFunction` re-parses that text, so a shipped closure is embedded as
  a `SerializedClosure` recording the shape features `evaluateFunction`
  branches on and the free identifiers its body needs, together with the
  value its body would compute (`processBatch` mirrors the closure's body).
  Numeric values are idealised as rationals; `Math.sqrt` is an abstract
  parameter `msqrt` (no proved statement depends on its values).
* `MathModuleFactory.getBestAvailableType` and the winner-selection loop of
  `MathModuleFactory.benchmarkAndSelectBest` (MathModuleBridge.ts); the timed
  benchmark runs themselves are wall-clock measurements and are abstracted
  into the score table the selection loop consumes.
-/

namespace MouseWont

/-! ## Scheduler data model (ThreadPoolManager) -/

/-- Error kinds distinguished by the scheduler's rejection paths. -/
inductive ErrKind
  | poolNotRunning
  | queueFull
  | noWorkers
  | postFailure
  | timedOut
  | shuttingDown
  | taskError
deriving DecidableEq, Repr

/-- Observable outcome of one handler execution: which promise (by task id)
was resolved or rejected, or that a message was dropped. -/
inductive PoolOutcome
  | silent
  | scheduled (id : Nat) (slot : Nat)
  | resolved (id : Nat)
  | rejected (id : Nat) (kind : ErrKind)
  | rejectedCall (kind : ErrKind)
  | rejectedMany (ids : List Nat) (kind : ErrKind)
  | droppedMsg
deriving DecidableEq, Repr

/-- State of a `ThreadPoolManager`: `registry` is the key set of the
`taskQueue` map (pending task ids, insertion order), `timers` the set of task
ids with a live timeout timer (each map entry stores its `timeoutId`),
`workers` the length of the `workers` array. -/
structure PoolState where
  running : Bool
  workers : Nat
  registry : List Nat
  timers : List Nat
  nextTaskId : Nat
  maxQueueSize : Nat
  jsThreadCount : Nat
deriving DecidableEq, Repr

/-- Events the coordinator's event loop can process. -/
inductive PoolEvent
  | schedule (postOk : Bool)
  | workerResult (id : Nat) (isErr : Bool)
  | invalidMessage
  | timerFire (id : Nat)
  | shutdown
  | start (failed : Nat)
deriving DecidableEq, Repr

/-- Removal of a key, as `Map.delete` does on the pending registry. -/
def removeId (l : List Nat) (id : Nat) : List Nat :=
  l.filter (fun k => k != id)

/-- Combined effect of `setTimeout` plus `taskQueue.set(taskId, ...)`:
the id gains a registry entry and a live timer (`Map.set` replaces any
previous binding of the key). -/
def PoolState.setEntry (s : PoolState) (id : Nat) : PoolState :=
  { s with registry := removeId s.registry id ++ [id],
           timers := removeId s.timers id ++ [id] }

/-- Combined effect of `clearTimeout` plus `taskQueue.delete(taskId)`. -/
def PoolState.clearEntry (s : PoolState) (id : Nat) : PoolState :=
  { s with registry := removeId s.registry id,
           timers := removeId s.timers id }

/-- Embeds `ThreadPoolManager.scheduleTask`: reject if not running, reject if
the registry is at `maxQueueSize`, otherwise allocate `nextTaskId`, create the
timeout timer and registry entry, then reject (cleaning both up) if no workers
exist or if `worker.postMessage` throws (`postOk = false`), else send to the
worker selected round-robin by `taskId % workers.length`. -/
def scheduleStep (s : PoolState) (postOk : Bool) : PoolState × PoolOutcome :=
  if s.running = false then (s, .rejectedCall .poolNotRunning)
  else if s.maxQueueSize ≤ s.registry.length then (s, .rejectedCall .queueFull)
  else
    let taskId := s.nextTaskId
    let s1 := PoolState.setEntry { s with nextTaskId := s.nextTaskId + 1 } taskId
    if s1.workers = 0 then (s1.clearEntry taskId, .rejected taskId .noWorkers)
    else if postOk then (s1, .scheduled taskId (taskId % s1.workers))
    else (s1.clearEntry taskId, .rejected taskId .postFailure)

/-- Embeds `ThreadPoolManager.handleWorkerMessage` for a well-formed result
message: an id with no registry entry is logged and dropped; otherwise the
timer is cleared and the entry deleted before the stored callback runs
(rejection when `message.error` is truthy, resolution otherwise). -/
def resultStep (s : PoolState) (id : Nat) (isErr : Bool) : PoolState × PoolOutcome :=
  if id ∈ s.registry then
    if isErr then (s.clearEntry id, .rejected id .taskError)
    else (s.clearEntry id, .resolved id)
  else (s, .droppedMsg)

/-- Embeds the `setTimeout` callback installed by `scheduleTask`: it can only
run while its timer is live; it removes the registry entry, if still present,
and rejects with the timeout error. -/
def timerStep (s : PoolState) (id : Nat) : PoolState × PoolOutcome :=
  if id ∈ s.timers then
    let s1 := { s with timers := removeId s.timers id }
    if id ∈ s1.registry then
      ({ s1 with registry := removeId s1.registry id }, .rejected id .timedOut)
    else (s1, .silent)
  else (s, .silent)

/-- Embeds `ThreadPoolManager.shutdown`: a no-op when not running; otherwise
clears the running flag, cancels every pending entry's timer, rejects every
pending promise with the shutting-down error, empties the registry and
terminates (awaits exit of) every worker. -/
def shutdownStep (s : PoolState) : PoolState × PoolOutcome :=
  if s.running = false then (s, .silent)
  else ({ s with running := false, registry := [], timers := [], workers := 0 },
        .rejectedMany s.registry .shuttingDown)

/-- Embeds `ThreadPoolManager.start`: a no-op when already running; otherwise
sets the running flag and initialises the workers, continuing with however
many of the `jsThreadCount` workers were created successfully (`failed`
creations are logged, not fatal). -/
def startStep (s : PoolState) (failed : Nat) : PoolState × PoolOutcome :=
  if s.running = true then (s, .silent)
  else ({ s with running := true, workers := s.jsThreadCount - failed }, .silent)

/-- One atomic handler execution of the coordinator. -/
def step (s : PoolState) : PoolEvent → PoolState × PoolOutcome
  | .schedule postOk => scheduleStep s postOk
  | .workerResult id isErr => resultStep s id isErr
  | .invalidMessage => (s, .droppedMsg)
  | .timerFire id => timerStep s id
  | .shutdown => shutdownStep s
  | .start failed => startStep s failed

/-- State after a sequence of handler executions. -/
def runTrace (s : PoolState) : List PoolEvent → PoolState
  | [] => s
  | e :: es => runTrace (step s e).1 es

/-- Whether an outcome resolves or rejects the promise of task `id`. -/
def PoolOutcome.deliversFor : PoolOutcome → Nat → Bool
  | .resolved i, id => decide (i = id)
  | .rejected i _, id => decide (i = id)
  | .rejectedMany ids _, id => decide (id ∈ ids)
  | _, _ => false

/-- Number of times the promise of task `id` is resolved or rejected along a
trace of handler executions. -/
def countDeliveries (s : PoolState) (id : Nat) : List PoolEvent → Nat
  | [] => 0
  | e :: es =>
      (if (step s e).2.deliversFor id then 1 else 0) + countDeliveries (step s e).1 id es

/-- Well-formedness: every pending task id was allocated from the monotone
counter, hence is below `nextTaskId`.  Holds for every constructed pool. -/
def PoolWF (s : PoolState) : Prop := ∀ k ∈ s.registry, k < s.nextTaskId

/-- Task `id` has reached a terminal state: no registry entry remains and the
id counter has moved past it (so it can never be re-issued). -/
def Resolved (id : Nat) (s : PoolState) : Prop :=
  id ∉ s.registry ∧ id < s.nextTaskId

/-! ## Construction (ThreadPoolManager constructor) -/

/-- Constructor options (`jsThreads`, `maxQueueSize`, `taskTimeout`). -/
structure ThreadPoolOptions where
  jsThreads : Option Int
  maxQueueSize : Option Nat
  taskTimeout : Option Nat

/-- Embeds `options.maxQueueSize || 10000` (JavaScript `||`: absent and `0`
both fall back to the default). -/
def resolveMaxQueueSize : Option Nat → Nat
  | none => 10000
  | some 0 => 10000
  | some (n + 1) => n + 1

/-- Embeds `ThreadPoolManager.determineThreadCount`: an absent, zero or
negative request auto-computes `max(1, floor(available / 2))`; a positive
request is capped at the available hardware threads. -/
def determineThreadCount (requested : Option Int) (avail : Nat) : Nat :=
  match requested with
  | none => max 1 (avail / 2)
  | some r => if r ≤ 0 then max 1 (avail / 2) else min r.toNat avail

/-- Embeds the `ThreadPoolManager` constructor: it initialises the options
and then calls `start()` as a side effect (`failed` of the `jsThreadCount`
worker creations fail; `avail` is the detected hardware thread count). -/
def mkPool (opts : ThreadPoolOptions) (avail : Nat) (failed : Nat) : PoolState :=
  let s0 : PoolState :=
    { running := false
      workers := 0
      registry := []
      timers := []
      nextTaskId := 0
      maxQueueSize := resolveMaxQueueSize opts.maxQueueSize
      jsThreadCount := determineThreadCount opts.jsThreads avail }
  (step s0 (.start failed)).1

/-! ## Batch dispatcher (generateBezierPaths / simulatePhysicsMovements) -/

/-- A 2-D point; coordinates idealised as rationals. -/
structure Point where
  x : ℚ
  y : ℚ
deriving DecidableEq, Repr

/-- Options of `generateBezierPaths` / `generateBezierPath`. -/
structure BezierOptions where
  numPoints : Nat
  complexity : ℚ
  overshootFactor : ℚ
  jitterAmount : ℚ
  seed : Option Nat
deriving DecidableEq, Repr

/-- One step of the LCG used by `generateBezierPath`:
`rngState = (1664525 * rngState + 1013904223) % 2**32` (exact in JavaScript
doubles for states below `2^32`). -/
def lcgNext (state : Nat) : Nat :=
  (1664525 * state + 1013904223) % 4294967296

/-- The value returned by one `random()` call at a given LCG state:
`rngState / 2**32`. -/
def lcgToQ (state : Nat) : ℚ :=
  (state : ℚ) / 4294967296

/-- Embeds the private `ThreadPoolManager.generateBezierPath` reference
implementation.  `msqrt` abstracts `Math.sqrt`; `entropy` abstracts the
`Math.floor(Math.random() * 1000000)` draw used only when `options.seed` is
absent.  The six potential `random()` calls are the pre-advanced LCG states
`r1 … r6` in source order (jitter x1, y1, x2, y2, perpendicular magnitude,
overshoot amount). -/
def generateBezierPath (msqrt : ℚ → ℚ) (start stop : Point) (o : BezierOptions)
    (entropy : Nat) : List Point :=
  let seed := o.seed.getD entropy
  let r1 := lcgNext seed
  let r2 := lcgNext r1
  let r3 := lcgNext r2
  let r4 := lcgNext r3
  let r5 := lcgNext r4
  let r6 := lcgNext r5
  let dx := stop.x - start.x
  let dy := stop.y - start.y
  let distance := msqrt (dx * dx + dy * dy)
  let jitterScale := min (50 : ℚ) (distance * (2 / 10)) * o.jitterAmount * (1 / 10)
  let jitterX1 := (lcgToQ r1 * 2 - 1) * jitterScale
  let jitterY1 := (lcgToQ r2 * 2 - 1) * jitterScale
  let jitterX2 := (lcgToQ r3 * 2 - 1) * jitterScale
  let jitterY2 := (lcgToQ r4 * 2 - 1) * jitterScale
  let perpMagnitude := o.complexity * (1 / 2) * (lcgToQ r5 - 1 / 2)
  let perpX := -dy * perpMagnitude
  let perpY := dx * perpMagnitude
  let cp1 : Point :=
    ⟨start.x + dx * (3 / 10) + perpX + jitterX1,
     start.y + dy * (3 / 10) + perpY + jitterY1⟩
  let cp2 : Point :=
    if 0 < o.overshootFactor ∧ 100 < distance then
      let overshootAmount := o.overshootFactor * ((1 / 10) + (1 / 10) * lcgToQ r6)
      ⟨stop.x + dx * overshootAmount, stop.y + dy * overshootAmount⟩
    else
      ⟨stop.x - dx * (3 / 10) - perpX + jitterX2,
       stop.y - dy * (3 / 10) - perpY + jitterY2⟩
  (List.range o.numPoints).map fun i =>
    let t : ℚ := (i : ℚ) / ((o.numPoints : ℚ) - 1)
    let mt := 1 - t
    let mt2 := mt * mt
    let mt3 := mt2 * mt
    let t2 := t * t
    let t3 := t2 * t
    ⟨mt3 * start.x + 3 * mt2 * t * cp1.x + 3 * mt * t2 * cp2.x + t3 * stop.x,
     mt3 * start.y + 3 * mt2 * t * cp1.y + 3 * mt * t2 * cp2.y + t3 * stop.y⟩

/-- Integer ceiling division, as `Math.ceil(a / b)` computes for naturals and
positive `b`. -/
def ceilDiv (a b : Nat) : Nat := (a + b - 1) / b

/-- The chunking loop `for (let i = 0; i < N; i += batchSize)` slicing
`[i, i + batchSize)`: contiguous chunks in original order. -/
def chunks {α : Type} : Nat → List α → List (List α)
  | _, [] => []
  | 0, _ :: _ => []
  | b + 1, x :: xs =>
      (x :: xs).take (b + 1) :: chunks (b + 1) ((x :: xs).drop (b + 1))
termination_by _ l => l.length
decreasing_by
  simp only [List.length_drop, List.length_cons]
  omega

/-- Embeds the `processBatch` closure submitted to the worker pool: compute
the chunk sequentially with the reference per-item operation, every item using
the same shared `options`.  `ent` supplies the per-item entropy draws (used
only when `options.seed` is absent). -/
def processBatch (msqrt : ℚ → ℚ) (o : BezierOptions) :
    List (Point × Point) → (Nat → Nat) → List (List Point)
  | [], _ => []
  | p :: rest, ent =>
      generateBezierPath msqrt p.1 p.2 o (ent 0) ::
        processBatch msqrt o rest (fun i => ent (i + 1))

/-- The aspects of a serialized closure that decide what worker.js does with
it: whether `task.toString()` contains an arrow (`=>`), whether the arrow is
`async` (so the parameter-group regex of `evaluateFunction` captures the text
`async (…)`), whether the body has free references that no worker can
resolve (a lexically captured `this`, or the downleveled `_this` and
`__awaiter` helpers), and the value the body would compute if all its
references were resolvable. -/
structure SerializedClosure (α : Type) where
  hasArrow : Bool
  asyncArrow : Bool
  freeWorkerRefs : Bool
  compute : α

/-- Embeds worker.js's handling of one shipped closure (`evaluateFunction`
followed by `await taskFunction(...args)`, worker.js lines 30-49 and 79-131):
for an arrow function the regex `^\s*(?:\(([^)]*)\)|([^=]*?))\s*=>` is tried;
on an async arrow the first alternative fails (the text starts with `async`,
not `(`) and the lazy second alternative captures `async (…)`, which
`new Function` rejects as a parameter list, so `evaluateFunction` throws
(caught at line 43 and posted back as the task's error); a reconstructed
body whose free identifiers do not exist in the worker throws when called
(also posted back as the task's error); otherwise the call returns the
body's value. -/
def runInWorker {α : Type} (c : SerializedClosure α) : Except String α :=
  if c.hasArrow = true ∧ c.asyncArrow = true then
    .error "Failed to evaluate function: SyntaxError in parameter list"
  else if c.freeWorkerRefs = true then
    .error "ReferenceError: identifier captured from the main thread is not defined"
  else
    .ok c.compute

/-- The `processBatch` closure exactly as `scheduleTask` ships it
(`task.toString()`, part_009 lines 300-301, closure at lines 492-505): an
async arrow whose body calls `this.generateBezierPath`, hence serialized
with `=>`, an `async`-prefixed parameter capture, and free references
(`this` — or, if downleveled, `_this` and `__awaiter`) that are not defined
inside the worker.  The value its body describes is the sequential chunk
computation `processBatch`. -/
def serializedProcessBatch (msqrt : ℚ → ℚ) (o : BezierOptions)
    (batch : List (Point × Point)) (ent : Nat → Nat) :
    SerializedClosure (List (List Point)) :=
  { hasArrow := true, asyncArrow := true, freeWorkerRefs := true,
    compute := processBatch msqrt o batch ent }

/-- `Promise.all` over settled task results: the first rejection rejects the
whole batch, otherwise the list of fulfilled values in order. -/
def awaitAll {α : Type} : List (Except String α) → Except String (List α)
  | [] => .ok []
  | .error e :: _ => .error e
  | .ok a :: rest => (awaitAll rest).map (fun l => a :: l)

/-- Embeds the worker-pool fallback of `generateBezierPaths`: chunk size
`max(1, ceil(N / workers.length))`, one Task per chunk submitting the
serialized `processBatch` closure to a worker, `Promise.all` over the chunk
Tasks, and the flattened results in chunk order on success.  Returns the
awaited outcome and the number of chunk tasks submitted.
`ent chunkIdx itemIdx` abstracts the entropy available to each worker
(irrelevant once a seed is given). -/
def bezierFallback (msqrt : ℚ → ℚ) (W : Nat) (starts stops : List Point)
    (o : BezierOptions) (ent : Nat → Nat → Nat) :
    Except String (List (List Point)) × Nat :=
  let pairs := starts.zip stops
  let bs := max 1 (ceilDiv starts.length W)
  let batches := chunks bs pairs
  ((awaitAll ((batches.enum).map fun ib =>
      runInWorker (serializedProcessBatch msqrt o ib.2 (ent ib.1)))).map List.flatten,
   batches.length)

/-- The value the worker-pool fallback is meant to produce: every chunk task
executing its `processBatch` body (the `compute` field of the shipped
closure), results flattened in chunk order. -/
def intendedChunkedPaths (msqrt : ℚ → ℚ) (W : Nat) (starts stops : List Point)
    (o : BezierOptions) (ent : Nat → Nat → Nat) : List (List Point) :=
  (((chunks (max 1 (ceilDiv starts.length W)) (starts.zip stops)).enum).map
      fun ib => processBatch msqrt o ib.2 (ent ib.1)).flatten

/-- Errors a batch entry point can reject with: the two validation errors,
and the error of a failed worker chunk task propagated by `Promise.all`. -/
inductive BatchError
  | poolNotRunning
  | lengthMismatch
  | taskFailure (msg : String)
deriving DecidableEq, Repr

/-- Environment of a batch call: running flag, `fallbackMode` (C++ module
failed to load), the optional native batch primitives of the loaded C++
module, live worker count, and the abstract square root. -/
structure BatchEnv where
  running : Bool
  fallbackMode : Bool
  cppBatch : Option (List Point → List Point → BezierOptions → Nat →
      Except String (List (List Point)))
  physBatch : Option (List Point → List Point → Nat →
      Except String (List (List Point)))
  workers : Nat
  msqrt : ℚ → ℚ

/-- Result of a batch entry point together with the effects it performed:
whether a native batch primitive was invoked and how many worker tasks were
submitted. -/
structure GBPOutcome where
  result : Except BatchError (List (List Point))
  nativeCalled : Bool
  tasksSubmitted : Nat
deriving Repr

/-- Lift the awaited fallback outcome into the call's result: the whole
batch call resolves with the flattened paths, or rejects with the first
chunk task's error (`await Promise.all` rethrows it). -/
def fbResult : Except String (List (List Point)) → Except BatchError (List (List Point))
  | .ok paths => .ok paths
  | .error e => .error (.taskFailure e)

/-- Embeds `ThreadPoolManager.generateBezierPaths`: running check, length
validation, empty-input short-circuit, the guarded native batch attempt with
resolved seed (`natEnt` abstracts the seed drawn when none is given), whose
failure is caught and logged, and the worker-pool fallback awaited through
the worker transport. -/
def generateBezierPaths (env : BatchEnv) (starts stops : List Point)
    (o : BezierOptions) (natEnt : Nat) (ent : Nat → Nat → Nat) : GBPOutcome :=
  if env.running = false then ⟨.error .poolNotRunning, false, 0⟩
  else if starts.length ≠ stops.length then ⟨.error .lengthMismatch, false, 0⟩
  else if starts.length = 0 then ⟨.ok [], false, 0⟩
  else
    match (if env.fallbackMode then none else env.cppBatch) with
    | some f =>
        let seed := o.seed.getD natEnt
        match f starts stops o seed with
        | .ok paths => ⟨.ok paths, true, 0⟩
        | .error _ =>
            let fb := bezierFallback env.msqrt env.workers starts stops o ent
            ⟨fbResult fb.1, true, fb.2⟩
    | none =>
        let fb := bezierFallback env.msqrt env.workers starts stops o ent
        ⟨fbResult fb.1, false, fb.2⟩

/-- Physics simulation options of `simulatePhysicsMovements`. -/
structure PhysicsOptions where
  mass : ℚ
  springConstant : ℚ
  dampingFactor : ℚ
  timeStep : ℚ
  maxSteps : Nat
  stoppingThreshold : ℚ
  seed : Option Nat
deriving DecidableEq, Repr

/-- The minimal linear-path fallback of `simulatePhysicsMovements`. -/
def linearFallbackPath (start stop : Point) (numPoints : Nat) : List Point :=
  (List.range numPoints).map fun j =>
    let t : ℚ := (j : ℚ) / ((numPoints : ℚ) - 1)
    ⟨start.x + (stop.x - start.x) * t, start.y + (stop.y - start.y) * t⟩

/-- Embeds `ThreadPoolManager.simulatePhysicsMovements`: same validation
structure as `generateBezierPaths`; its JavaScript fallback computes linear
paths directly (no worker tasks). -/
def simulatePhysicsMovements (env : BatchEnv) (starts stops : List Point)
    (o : PhysicsOptions) (natEnt : Nat) : GBPOutcome :=
  if env.running = false then ⟨.error .poolNotRunning, false, 0⟩
  else if starts.length ≠ stops.length then ⟨.error .lengthMismatch, false, 0⟩
  else if starts.length = 0 then ⟨.ok [], false, 0⟩
  else
    match (if env.fallbackMode then none else env.physBatch) with
    | some f =>
        let seed := o.seed.getD natEnt
        match f starts stops seed with
        | .ok paths => ⟨.ok paths, true, 0⟩
        | .error _ =>
            ⟨.ok ((starts.zip stops).map fun p =>
                linearFallbackPath p.1 p.2 (min o.maxSteps 100)), true, 0⟩
    | none =>
        ⟨.ok ((starts.zip stops).map fun p =>
            linearFallbackPath p.1 p.2 (min o.maxSteps 100)), false, 0⟩

/-! ## Backend selection (MathModuleFactory) -/

/-- The `MathModuleType` enum, in declaration order
(`TYPESCRIPT`, `CPP`, `PYTHON`, `FORTRAN`). -/
inductive MathModuleType
  | typescript
  | cpp
  | python
  | fortran
deriving DecidableEq, Repr

/-- Declaration order of the enum, which is both the `Object.values`
iteration order and the key insertion order of the benchmark `results`
record literal. -/
def moduleEnumValues : List MathModuleType :=
  [.typescript, .cpp, .python, .fortran]

/-- Embeds `MathModuleFactory.getBestAvailableType`: collect the registered
kinds (in the order `CPP, PYTHON, FORTRAN, TYPESCRIPT` used by its first
loop), return TypeScript if it is the only one, otherwise the first
registered kind of the preference order
`CPP, FORTRAN, PYTHON, TYPESCRIPT`. -/
def getBestAvailableType (registered : MathModuleType → Bool) : MathModuleType :=
  let availableTypes :=
    [MathModuleType.cpp, MathModuleType.python, MathModuleType.fortran,
     MathModuleType.typescript].filter registered
  if availableTypes = [MathModuleType.typescript] then MathModuleType.typescript
  else
    match [MathModuleType.cpp, MathModuleType.fortran, MathModuleType.python,
           MathModuleType.typescript].find? registered with
    | some t => t
    | none => MathModuleType.typescript

/-- The winner-selection loop at the end of
`MathModuleFactory.benchmarkAndSelectBest`, over `Object.entries(results)`:
starting from TypeScript with its own score, replace the best only on a
strictly greater score of a registered kind. -/
def selectLoop (registered : MathModuleType → Bool) (results : MathModuleType → ℚ) :
    List MathModuleType → MathModuleType × ℚ → MathModuleType × ℚ
  | [], best => best
  | t :: rest, best =>
      selectLoop registered results rest
        (if best.2 < results t ∧ registered t = true then (t, results t) else best)

/-- The module `benchmarkAndSelectBest` picks as winner, given the benchmark
score table (`results`) and the registered kinds; the timed runs producing
the scores are abstracted. -/
def selectBestModule (registered : MathModuleType → Bool)
    (results : MathModuleType → ℚ) : MathModuleType :=
  (selectLoop registered results moduleEnumValues
    (MathModuleType.typescript, results MathModuleType.typescript)).1

/-! ## Concrete states used by the witnesses and counterexamples -/

/-- A freshly started pool with one worker and nothing pending. -/
def examplePool : PoolState :=
  { running := true, workers := 1, registry := [], timers := [], nextTaskId := 0,
    maxQueueSize := 10000, jsThreadCount := 1 }

/-- A running pool with task 0 pending (entry and live timer). -/
def pendingPool : PoolState :=
  { running := true, workers := 1, registry := [0], timers := [0], nextTaskId := 1,
    maxQueueSize := 10000, jsThreadCount := 1 }

/-- A pool that has been shut down. -/
def stoppedPool : PoolState :=
  { running := false, workers := 0, registry := [], timers := [], nextTaskId := 3,
    maxQueueSize := 10000, jsThreadCount := 1 }

/-- A running pool whose registry is at its configured maximum (size 1). -/
def fullPool : PoolState :=
  { running := true, workers := 1, registry := [0], timers := [0], nextTaskId := 1,
    maxQueueSize := 1, jsThreadCount := 1 }

/-- Concrete start points for batch evaluations. -/
def startsEx : List Point := [⟨0, 0⟩, ⟨10, 5⟩, ⟨3, 4⟩]

/-- Concrete end points for batch evaluations. -/
def stopsEx : List Point := [⟨100, 50⟩, ⟨20, 80⟩, ⟨7, 1⟩]

/-- A single concrete start point. -/
def startsOne : List Point := [⟨0, 0⟩]

/-- A single concrete end point. -/
def stopsOne : List Point := [⟨30, 40⟩]

/-- The identity as a stand-in square root for concrete evaluations (the
claims proved are independent of the value of `Math.sqrt`). -/
def idSqrt : ℚ → ℚ := fun q => q

/-- A native batch primitive whose invocation always fails. -/
def failingBatch : List Point → List Point → BezierOptions → Nat →
    Except String (List (List Point)) :=
  fun _ _ _ _ => .error "native batch failed"

/-- Environment with a loaded C++ module whose batch primitive fails. -/
def envFailing : BatchEnv :=
  { running := true, fallbackMode := false, cppBatch := some failingBatch,
    physBatch := none, workers := 1, msqrt := idSqrt }

/-- Environment with no native batch primitive (fallback mode). -/
def envNoNative : BatchEnv :=
  { running := true, fallbackMode := true, cppBatch := none,
    physBatch := none, workers := 2, msqrt := idSqrt }

/-- Environment of a pool that is not running. -/
def envStopped : BatchEnv :=
  { running := false, fallbackMode := true, cppBatch := none,
    physBatch := none, workers := 0, msqrt := idSqrt }

/-- Bézier options with the explicit seed 12345. -/
def optsSeeded : BezierOptions :=
  { numPoints := 2, complexity := 1, overshootFactor := 0, jitterAmount := 1,
    seed := some 12345 }

/-- Physics options for concrete evaluations. -/
def physOptsEx : PhysicsOptions :=
  { mass := 1, springConstant := 8, dampingFactor := 7 / 10, timeStep := 1 / 60,
    maxSteps := 3, stoppingThreshold := 1 / 10, seed := some 1 }

/-- Registration table with exactly TypeScript and C++ registered. -/
def tieRegistered : MathModuleType → Bool :=
  fun t => t == MathModuleType.typescript || t == MathModuleType.cpp

/-- Benchmark score table assigning every backend the same score. -/
def tieScores : MathModuleType → ℚ := fun _ => 5

/-! ## Helper lemmas -/

theorem mem_removeId {l : List Nat} {k id : Nat} :
    k ∈ removeId l id ↔ k ∈ l ∧ k ≠ id := by
  simp [removeId, List.mem_filter, bne_iff_ne]

theorem not_mem_removeId (l : List Nat) (id : Nat) : id ∉ removeId l id := by
  simp [mem_removeId]

theorem removeId_length_le (l : List Nat) (id : Nat) :
    (removeId l id).length ≤ l.length :=
  List.length_filter_le _ _

theorem mem_setEntry_registry {s : PoolState} {id k : Nat} :
    k ∈ (s.setEntry id).registry ↔ (k ∈ s.registry ∧ k ≠ id) ∨ k = id := by
  simp [PoolState.setEntry, mem_removeId]

theorem mem_clearEntry_registry {s : PoolState} {id k : Nat} :
    k ∈ (s.clearEntry id).registry ↔ k ∈ s.registry ∧ k ≠ id := by
  simp [PoolState.clearEntry, mem_removeId]

theorem chunks_flatten {α : Type} (bs : Nat) (hbs : 1 ≤ bs) :
    ∀ (n : Nat) (l : List α), l.length ≤ n → (chunks bs l).flatten = l := by
  intro n
  induction n with
  | zero =>
    intro l hl
    have h0 : l = [] := List.length_eq_zero.mp (Nat.le_zero.mp hl)
    subst h0
    simp [chunks]
  | succ n ih =>
    intro l hl
    rcases l with _ | ⟨x, xs⟩
    · simp [chunks]
    · rcases bs with _ | b
      · omega
      · rw [chunks]
        simp only [List.flatten_cons]
        rw [ih ((x :: xs).drop (b + 1)) ?_]
        · exact List.take_append_drop (b + 1) (x :: xs)
        · simp only [List.length_drop, List.length_cons] at hl ⊢
          omega

theorem chunks_shape {α : Type} (bs : Nat) :
    ∀ (n : Nat) (l : List α), l.length ≤ n →
      ∀ c ∈ chunks bs l, c.length ≤ bs ∧ c ≠ [] := by
  intro n
  induction n with
  | zero =>
    intro l hl
    have h0 : l = [] := List.length_eq_zero.mp (Nat.le_zero.mp hl)
    subst h0
    intro c hc
    simp [chunks] at hc
  | succ n ih =>
    intro l hl
    rcases l with _ | ⟨x, xs⟩
    · intro c hc
      simp [chunks] at hc
    · rcases bs with _ | b
      · intro c hc
        simp [chunks] at hc
      · rw [chunks]
        intro c hc
        rcases List.mem_cons.mp hc with hc | hc
        · subst hc
          refine ⟨by simp [List.length_take], ?_⟩
          simp
        · refine ih ((x :: xs).drop (b + 1)) ?_ c hc
          simp only [List.length_drop, List.length_cons] at hl ⊢
          omega

theorem map_zip_eq_zipWith {α β γ : Type} (f : α → β → γ) :
    ∀ (l1 : List α) (l2 : List β),
      (l1.zip l2).map (fun p => f p.1 p.2) = List.zipWith f l1 l2 := by
  intro l1
  induction l1 with
  | nil => intro l2; rfl
  | cons a t ih =>
    intro l2
    cases l2 with
    | nil => rfl
    | cons b t2 => simp [List.zip_cons_cons, ih]

theorem zipWith_getD {α β γ : Type} (f : α → β → γ) (da : α) (db : β) (dc : γ) :
    ∀ (l1 : List α) (l2 : List β) (i : Nat), i < l1.length → l1.length = l2.length →
      (List.zipWith f l1 l2).getD i dc = f (l1.getD i da) (l2.getD i db) := by
  intro l1
  induction l1 with
  | nil =>
    intro l2 i h _
    simp at h
  | cons a t ih =>
    intro l2 i h hlen
    cases l2 with
    | nil => simp at hlen
    | cons b t2 =>
      cases i with
      | zero => rfl
      | succ j =>
        simp only [List.zipWith_cons_cons, List.getD_cons_succ]
        exact ih t2 j (by simp at h; omega) (by simp at hlen; omega)

theorem step_maxQueueSize (s : PoolState) (e : PoolEvent) :
    (step s e).1.maxQueueSize = s.maxQueueSize := by
  cases e <;>
    simp only [step, scheduleStep, resultStep, timerStep, shutdownStep, startStep,
      PoolState.setEntry, PoolState.clearEntry] <;>
    (repeat' split) <;> rfl

theorem step_nextTaskId_mono (s : PoolState) (e : PoolEvent) :
    s.nextTaskId ≤ (step s e).1.nextTaskId := by
  cases e <;>
    simp only [step, scheduleStep, resultStep, timerStep, shutdownStep, startStep,
      PoolState.setEntry, PoolState.clearEntry] <;>
    (repeat' split) <;> simp

theorem step_registry_timers (s : PoolState) (e : PoolEvent)
    (h : s.registry = s.timers) : (step s e).1.registry = (step s e).1.timers := by
  cases e <;>
    simp only [step, scheduleStep, resultStep, timerStep, shutdownStep, startStep,
      PoolState.setEntry, PoolState.clearEntry] <;>
    (repeat' split) <;> simp_all [h]

theorem step_registry_length (s : PoolState) (e : PoolEvent)
    (h : s.registry.length ≤ s.maxQueueSize) :
    (step s e).1.registry.length ≤ s.maxQueueSize := by
  cases e with
  | schedule postOk =>
    simp only [step, scheduleStep]
    split
    · exact h
    · split
      · exact h
      · rename_i hfull
        split
        · simp only [PoolState.clearEntry, PoolState.setEntry]
          have h1 := removeId_length_le
            (removeId s.registry s.nextTaskId ++ [s.nextTaskId]) s.nextTaskId
          have h2 := removeId_length_le s.registry s.nextTaskId
          simp only [List.length_append, List.length_singleton] at h1
          omega
        · split
          · simp only [PoolState.setEntry, List.length_append, List.length_singleton]
            have h2 := removeId_length_le s.registry s.nextTaskId
            omega
          · simp only [PoolState.clearEntry, PoolState.setEntry]
            have h1 := removeId_length_le
              (removeId s.registry s.nextTaskId ++ [s.nextTaskId]) s.nextTaskId
            have h2 := removeId_length_le s.registry s.nextTaskId
            simp only [List.length_append, List.length_singleton] at h1
            omega
  | workerResult id isErr =>
    simp only [step, resultStep]
    have h2 := removeId_length_le s.registry id
    (repeat' split) <;> simp only [PoolState.clearEntry] <;> omega
  | invalidMessage => exact h
  | timerFire id =>
    simp only [step, timerStep]
    have h2 := removeId_length_le s.registry id
    (repeat' split) <;> (simp only []; omega)
  | shutdown =>
    simp only [step, shutdownStep]
    (repeat' split) <;> simp [h]
  | start failed =>
    simp only [step, startStep]
    (repeat' split) <;> exact h

theorem wf_step (s : PoolState) (e : PoolEvent) (h : PoolWF s) : PoolWF (step s e).1 := by
  cases e with
  | schedule postOk =>
    simp only [step, scheduleStep]
    split
    · exact h
    · split
      · exact h
      · split
        · intro k hk
          simp only [PoolState.clearEntry, PoolState.setEntry, mem_removeId,
            List.mem_append, List.mem_singleton] at hk
          rcases hk with ⟨hk1 | hk1, hk2⟩
          · have := h k hk1.1
            simp only [PoolState.clearEntry, PoolState.setEntry]
            omega
          · exact absurd hk1 hk2
        · split
          · intro k hk
            simp only [PoolState.setEntry, mem_removeId, List.mem_append,
              List.mem_singleton] at hk
            simp only [PoolState.setEntry]
            rcases hk with hk | hk
            · have := h k hk.1
              omega
            · omega
          · intro k hk
            simp only [PoolState.clearEntry, PoolState.setEntry, mem_removeId,
              List.mem_append, List.mem_singleton] at hk
            simp only [PoolState.clearEntry, PoolState.setEntry]
            rcases hk with ⟨hk1 | hk1, hk2⟩
            · have := h k hk1.1
              omega
            · exact absurd hk1 hk2
  | workerResult id isErr =>
    simp only [step, resultStep]
    (repeat' split) <;>
      first
      | exact h
      | (intro k hk
         simp only [PoolState.clearEntry, mem_removeId] at hk
         exact h k hk.1)
  | invalidMessage => exact h
  | timerFire id =>
    simp only [step, timerStep]
    (repeat' split) <;>
      first
      | exact h
      | (intro k hk
         simp only [mem_removeId] at hk
         exact h k hk.1)
  | shutdown =>
    simp only [step, shutdownStep]
    (repeat' split)
    · exact h
    · intro k hk
      simp at hk
  | start failed =>
    simp only [step, startStep]
    (repeat' split) <;> exact h

theorem delivers_not_mem (s : PoolState) (e : PoolEvent) (id : Nat)
    (hd : (step s e).2.deliversFor id = true) :
    id ∉ (step s e).1.registry ∧ id ∉ (step s e).1.timers := by
  revert hd
  cases e with
  | schedule postOk =>
    simp only [step, scheduleStep]
    split
    · intro hd
      simp [PoolOutcome.deliversFor] at hd
    · split
      · intro hd
        simp [PoolOutcome.deliversFor] at hd
      · split
        · intro hd
          simp only [PoolOutcome.deliversFor, decide_eq_true_eq] at hd
          subst hd
          simp only [PoolState.clearEntry, PoolState.setEntry]
          constructor <;> exact not_mem_removeId _ _
        · split
          · intro hd
            simp [PoolOutcome.deliversFor] at hd
          · intro hd
            simp only [PoolOutcome.deliversFor, decide_eq_true_eq] at hd
            subst hd
            simp only [PoolState.clearEntry, PoolState.setEntry]
            constructor <;> exact not_mem_removeId _ _
  | workerResult j isErr =>
    simp only [step, resultStep]
    split
    · split <;>
        · intro hd
          simp only [PoolOutcome.deliversFor, decide_eq_true_eq] at hd
          subst hd
          simp only [PoolState.clearEntry]
          constructor <;> exact not_mem_removeId _ _
    · intro hd
      simp [PoolOutcome.deliversFor] at hd
  | invalidMessage =>
    intro hd
    simp [step, PoolOutcome.deliversFor] at hd
  | timerFire j =>
    simp only [step, timerStep]
    split
    · split
      · intro hd
        simp only [PoolOutcome.deliversFor, decide_eq_true_eq] at hd
        subst hd
        constructor <;> exact not_mem_removeId _ _
      · intro hd
        simp [PoolOutcome.deliversFor] at hd
    · intro hd
      simp [PoolOutcome.deliversFor] at hd
  | shutdown =>
    simp only [step, shutdownStep]
    split
    · intro hd
      simp [PoolOutcome.deliversFor] at hd
    · intro hd
      simp
  | start failed =>
    simp only [step, startStep]
    split <;>
      · intro hd
        simp [PoolOutcome.deliversFor] at hd

theorem delivers_resolved (s : PoolState) (e : PoolEvent) (id : Nat)
    (hwf : PoolWF s) (hd : (step s e).2.deliversFor id = true) :
    Resolved id (step s e).1 := by
  refine ⟨(delivers_not_mem s e id hd).1, ?_⟩
  revert hd
  cases e with
  | schedule postOk =>
    simp only [step, scheduleStep]
    split
    · intro hd
      simp [PoolOutcome.deliversFor] at hd
    · split
      · intro hd
        simp [PoolOutcome.deliversFor] at hd
      · split
        · intro hd
          simp only [PoolOutcome.deliversFor, decide_eq_true_eq] at hd
          subst hd
          simp [PoolState.clearEntry, PoolState.setEntry]
        · split
          · intro hd
            simp [PoolOutcome.deliversFor] at hd
          · intro hd
            simp only [PoolOutcome.deliversFor, decide_eq_true_eq] at hd
            subst hd
            simp [PoolState.clearEntry, PoolState.setEntry]
  | workerResult j isErr =>
    simp only [step, resultStep]
    split
    · rename_i hmem
      split <;>
        · intro hd
          simp only [PoolOutcome.deliversFor, decide_eq_true_eq] at hd
          subst hd
          simpa [PoolState.clearEntry] using hwf _ hmem
    · intro hd
      simp [PoolOutcome.deliversFor] at hd
  | invalidMessage =>
    intro hd
    simp [step, PoolOutcome.deliversFor] at hd
  | timerFire j =>
    simp only [step, timerStep]
    split
    · split
      · rename_i hmem
        intro hd
        simp only [PoolOutcome.deliversFor, decide_eq_true_eq] at hd
        subst hd
        exact hwf _ hmem
      · intro hd
        simp [PoolOutcome.deliversFor] at hd
    · intro hd
      simp [PoolOutcome.deliversFor] at hd
  | shutdown =>
    simp only [step, shutdownStep]
    split
    · intro hd
      simp [PoolOutcome.deliversFor] at hd
    · intro hd
      simp only [PoolOutcome.deliversFor, decide_eq_true_eq] at hd
      exact hwf _ hd
  | start failed =>
    simp only [step, startStep]
    split <;>
      · intro hd
        simp [PoolOutcome.deliversFor] at hd

theorem resolved_step (s : PoolState) (e : PoolEvent) (id : Nat)
    (hr : Resolved id s) :
    (step s e).2.deliversFor id = false ∧ Resolved id (step s e).1 := by
  obtain ⟨hmem, hlt⟩ := hr
  cases e with
  | schedule postOk =>
    simp only [step, scheduleStep]
    split
    · exact ⟨rfl, hmem, hlt⟩
    · split
      · exact ⟨rfl, hmem, hlt⟩
      · have hne : s.nextTaskId ≠ id := by omega
        split
        · refine ⟨by simp [PoolOutcome.deliversFor, hne], ?_,
            by simp [PoolState.clearEntry, PoolState.setEntry]; omega⟩
          simp only [PoolState.clearEntry, PoolState.setEntry, mem_removeId,
            List.mem_append, List.mem_singleton]
          intro hk
          rcases hk with ⟨hk1 | hk1, _⟩
          · exact hmem hk1.1
          · exact hne hk1.symm
        · split
          · refine ⟨rfl, ?_, by simp [PoolState.setEntry]; omega⟩
            simp only [PoolState.setEntry, mem_removeId, List.mem_append,
              List.mem_singleton]
            intro hk
            rcases hk with hk | hk
            · exact hmem hk.1
            · exact hne hk.symm
          · refine ⟨by simp [PoolOutcome.deliversFor, hne], ?_,
              by simp [PoolState.clearEntry, PoolState.setEntry]; omega⟩
            simp only [PoolState.clearEntry, PoolState.setEntry, mem_removeId,
              List.mem_append, List.mem_singleton]
            intro hk
            rcases hk with ⟨hk1 | hk1, _⟩
            · exact hmem hk1.1
            · exact hne hk1.symm
  | workerResult j isErr =>
    simp only [step, resultStep]
    split
    · rename_i hj
      have hne : j ≠ id := fun h => hmem (h ▸ hj)
      split <;>
        · refine ⟨by simp [PoolOutcome.deliversFor, hne], ?_, hlt⟩
          simp only [PoolState.clearEntry, mem_removeId]
          intro hk
          exact hmem hk.1
    · exact ⟨rfl, hmem, hlt⟩
  | invalidMessage => exact ⟨rfl, hmem, hlt⟩
  | timerFire j =>
    simp only [step, timerStep]
    split
    · split
      · rename_i hj
        have hne : j ≠ id := fun h => hmem (h ▸ hj)
        refine ⟨by simp [PoolOutcome.deliversFor, hne], ?_, hlt⟩
        simp only [mem_removeId]
        intro hk
        exact hmem hk.1
      · exact ⟨rfl, hmem, hlt⟩
    · exact ⟨rfl, hmem, hlt⟩
  | shutdown =>
    simp only [step, shutdownStep]
    split
    · exact ⟨rfl, hmem, hlt⟩
    · refine ⟨?_, by simp, hlt⟩
      simp [PoolOutcome.deliversFor, hmem]
  | start failed =>
    simp only [step, startStep]
    split
    · exact ⟨rfl, hmem, hlt⟩
    · exact ⟨rfl, hmem, hlt⟩

theorem resolved_countDeliveries (s : PoolState) (id : Nat) (hr : Resolved id s) :
    ∀ es : List PoolEvent, countDeliveries s id es = 0 := by
  intro es
  induction es generalizing s with
  | nil => rfl
  | cons e rest ih =>
    obtain ⟨hd, hr2⟩ := resolved_step s e id hr
    simp only [countDeliveries, hd, Bool.false_eq_true, if_false, Nat.zero_add]
    exact ih (step s e).1 hr2

theorem countDeliveries_le_one (s : PoolState) (id : Nat) (hwf : PoolWF s) :
    ∀ es : List PoolEvent, countDeliveries s id es ≤ 1 := by
  intro es
  induction es generalizing s with
  | nil => simp [countDeliveries]
  | cons e rest ih =>
    by_cases hd : (step s e).2.deliversFor id = true
    · have hres := delivers_resolved s e id hwf hd
      simp only [countDeliveries, hd, if_true]
      rw [resolved_countDeliveries (step s e).1 id hres rest]
    · simp only [countDeliveries, hd, Bool.false_eq_true, if_false]
      have := ih (step s e).1 (wf_step s e hwf)
      omega

theorem generateBezierPath_seeded (msqrt : ℚ → ℚ) (a b : Point) (o : BezierOptions)
    (sd e : Nat) (hs : o.seed = some sd) :
    generateBezierPath msqrt a b o e = generateBezierPath msqrt a b o 0 := by
  unfold generateBezierPath
  rw [hs]
  simp only [Option.getD_some]

theorem processBatch_eq_map (msqrt : ℚ → ℚ) (o : BezierOptions) (sd : Nat)
    (hs : o.seed = some sd) :
    ∀ (batch : List (Point × Point)) (ent : Nat → Nat),
      processBatch msqrt o batch ent
        = batch.map fun p => generateBezierPath msqrt p.1 p.2 o 0 := by
  intro batch
  induction batch with
  | nil => intro ent; rfl
  | cons p rest ih =>
    intro ent
    simp only [processBatch, List.map_cons]
    rw [generateBezierPath_seeded msqrt p.1 p.2 o sd (ent 0) hs, ih]

theorem enumFrom_chunks_flatten (msqrt : ℚ → ℚ) (o : BezierOptions) (sd : Nat)
    (hs : o.seed = some sd) (ent : Nat → Nat → Nat) :
    ∀ (L : List (List (Point × Point))) (n : Nat),
      ((List.enumFrom n L).map fun ib => processBatch msqrt o ib.2 (ent ib.1)).flatten
        = L.flatten.map fun p => generateBezierPath msqrt p.1 p.2 o 0 := by
  intro L
  induction L with
  | nil => intro n; rfl
  | cons c t ih =>
    intro n
    simp only [List.enumFrom, List.map_cons, List.flatten_cons, List.map_append]
    rw [processBatch_eq_map msqrt o sd hs c (ent n), ih (n + 1)]

theorem intendedChunkedPaths_eq_zipWith (msqrt : ℚ → ℚ) (W : Nat)
    (starts stops : List Point) (o : BezierOptions) (ent : Nat → Nat → Nat)
    (sd : Nat) (hs : o.seed = some sd) :
    intendedChunkedPaths msqrt W starts stops o ent
      = List.zipWith (fun a b => generateBezierPath msqrt a b o 0) starts stops := by
  unfold intendedChunkedPaths
  rw [List.enum]
  rw [enumFrom_chunks_flatten msqrt o sd hs ent
    (chunks (max 1 (ceilDiv starts.length W)) (starts.zip stops)) 0]
  rw [chunks_flatten (max 1 (ceilDiv starts.length W)) (le_max_left 1 _)
    (starts.zip stops).length (starts.zip stops) le_rfl]
  exact map_zip_eq_zipWith (fun a b => generateBezierPath msqrt a b o 0) starts stops

theorem bezierFallback_rejects (msqrt : ℚ → ℚ) (W : Nat) (starts stops : List Point)
    (o : BezierOptions) (ent : Nat → Nat → Nat) (hne : starts.zip stops ≠ []) :
    (bezierFallback msqrt W starts stops o ent).1
      = .error "Failed to evaluate function: SyntaxError in parameter list" := by
  obtain ⟨p, rest, hz⟩ : ∃ p rest, starts.zip stops = p :: rest := by
    rcases h : starts.zip stops with _ | ⟨p, rest⟩
    · exact absurd h hne
    · exact ⟨p, rest, rfl⟩
  obtain ⟨b, hb⟩ : ∃ b, max 1 (ceilDiv starts.length W) = b + 1 := by
    have := le_max_left 1 (ceilDiv starts.length W)
    exact ⟨max 1 (ceilDiv starts.length W) - 1, by omega⟩
  unfold bezierFallback
  simp only []
  rw [hz, hb, chunks]
  simp [List.enum, List.enumFrom, runInWorker, serializedProcessBatch, awaitAll,
    Except.map]

theorem generateBezierPaths_no_native (env : BatchEnv) (starts stops : List Point)
    (o : BezierOptions) (natEnt : Nat) (ent : Nat → Nat → Nat)
    (hrun : env.running = true)
    (hnat : (if env.fallbackMode then none else env.cppBatch) = none)
    (hlen : starts.length = stops.length) (hne : starts.length ≠ 0) :
    generateBezierPaths env starts stops o natEnt ent
      = ⟨fbResult (bezierFallback env.msqrt env.workers starts stops o ent).1, false,
         (bezierFallback env.msqrt env.workers starts stops o ent).2⟩ := by
  have h1 : ¬ (env.running = false) := by rw [hrun]; simp
  have h2 : ¬ (starts.length ≠ stops.length) := by simp [hlen]
  unfold generateBezierPaths
  rw [if_neg h1, if_neg h2, if_neg hne, hnat]

/-- C2 (code bug, shown at a concrete failing input): the specification
requires the fallback-mode batch call to return the `N` sequential reference
paths, but the call rejects with the worker-side closure-evaluation failure
(the shipped `processBatch` closure cannot be reconstructed by worker.js's
`evaluateFunction`), while the intended chunk computation at the same input
is exactly the sequential reference result — so the chunking and
recombination logic is as specified and the defect is the closure
transport. -/
theorem chunked_fallback_serialization_bug :
    (generateBezierPaths envNoNative startsOne stopsOne optsSeeded 0
        (fun _ _ => 0)).result
      = .error (.taskFailure "Failed to evaluate function: SyntaxError in parameter list")
  ∧ (generateBezierPaths envNoNative startsOne stopsOne optsSeeded 0
        (fun _ _ => 0)).result
      ≠ .ok (List.zipWith (fun a b => generateBezierPath idSqrt a b optsSeeded 0)
          startsOne stopsOne)
  ∧ intendedChunkedPaths idSqrt envNoNative.workers startsOne stopsOne optsSeeded
        (fun _ _ => 0)
      = List.zipWith (fun a b => generateBezierPath idSqrt a b optsSeeded 0)
          startsOne stopsOne := by
  have h1 := generateBezierPaths_no_native envNoNative startsOne stopsOne optsSeeded 0
    (fun _ _ => 0) rfl rfl rfl (by decide)
  have h2 := bezierFallback_rejects envNoNative.msqrt envNoNative.workers startsOne
    stopsOne optsSeeded (fun _ _ => 0) (by decide)
  refine ⟨?_, ?_, ?_⟩
  · rw [h1, h2]
    rfl
  · rw [h1, h2]
    simp [fbResult]
  · exact intendedChunkedPaths_eq_zipWith idSqrt envNoNative.workers startsOne stopsOne
      optsSeeded (fun _ _ => 0) 12345 rfl

/-- C5: when the loaded C++ module exposes the batch primitive and its
invocation fails, `generateBezierPaths` logs the failure, swallows it and
proceeds to the worker-pool fallback rather than propagating the native
error to the caller: its result and submitted-task count coincide with those
of the identical call in an environment whose native batch primitive is
absent — so the outcome is exactly the fallback path's and does not depend
on the native failure at all — with only the native-attempt flag set. -/
theorem native_batch_failure_degrades (env : BatchEnv) (starts stops : List Point)
    (o : BezierOptions) (natEnt : Nat) (ent : Nat → Nat → Nat)
    (f : List Point → List Point → BezierOptions → Nat → Except String (List (List Point)))
    (msg : String)
    (hrun : env.running = true) (hfb : env.fallbackMode = false)
    (hcpp : env.cppBatch = some f)
    (hlen : starts.length = stops.length) (hne : starts.length ≠ 0)
    (hfail : f starts stops o (o.seed.getD natEnt) = .error msg) :
    (generateBezierPaths env starts stops o natEnt ent).result
        = (generateBezierPaths { env with cppBatch := none } starts stops o
            natEnt ent).result
  ∧ (generateBezierPaths env starts stops o natEnt ent).nativeCalled = true
  ∧ (generateBezierPaths env starts stops o natEnt ent).tasksSubmitted
        = (generateBezierPaths { env with cppBatch := none } starts stops o
            natEnt ent).tasksSubmitted := by
  have h1 : ¬ (env.running = false) := by rw [hrun]; simp
  have h1b : ¬ (({ env with cppBatch := none } : BatchEnv).running = false) := by
    simp [hrun]
  have h2 : ¬ (starts.length ≠ stops.length) := by simp [hlen]
  have hL : generateBezierPaths env starts stops o natEnt ent
      = ⟨fbResult (bezierFallback env.msqrt env.workers starts stops o ent).1, true,
         (bezierFallback env.msqrt env.workers starts stops o ent).2⟩ := by
    unfold generateBezierPaths
    rw [if_neg h1, if_neg h2, if_neg hne, hfb]
    simp only [Bool.false_eq_true, if_false, hcpp]
    rw [hfail]
  have hR : generateBezierPaths { env with cppBatch := none } starts stops o natEnt ent
      = ⟨fbResult (bezierFallback env.msqrt env.workers starts stops o ent).1, false,
         (bezierFallback env.msqrt env.workers starts stops o ent).2⟩ := by
    unfold generateBezierPaths
    rw [if_neg h1b, if_neg h2, if_neg hne]
    simp [hfb]
  rw [hL, hR]
  exact ⟨rfl, rfl, rfl⟩

/-- C6 (amended): a length mismatch makes both batch entry points fail
before invoking any backend or submitting any worker task (with the
length-mismatch error when the pool is running), and on a running pool an
empty input returns `[]` immediately without touching pool or backend. -/
theorem batch_validation_contract (env : BatchEnv) (starts stops : List Point)
    (o : BezierOptions) (po : PhysicsOptions) (natEnt : Nat) (ent : Nat → Nat → Nat) :
    (starts.length ≠ stops.length →
        generateBezierPaths env starts stops o natEnt ent
            = ⟨.error (if env.running = true then .lengthMismatch else .poolNotRunning),
               false, 0⟩
        ∧ simulatePhysicsMovements env starts stops po natEnt
            = ⟨.error (if env.running = true then .lengthMismatch else .poolNotRunning),
               false, 0⟩)
  ∧ (env.running = true → starts = [] → stops = [] →
        generateBezierPaths env starts stops o natEnt ent = ⟨.ok [], false, 0⟩
        ∧ simulatePhysicsMovements env starts stops po natEnt = ⟨.ok [], false, 0⟩) := by
  constructor
  · intro hmm
    cases hr : env.running with
    | false =>
      refine ⟨?_, ?_⟩
      · unfold generateBezierPaths
        rw [if_pos hr]
        simp [hr]
      · unfold simulatePhysicsMovements
        rw [if_pos hr]
        simp [hr]
    | true =>
      refine ⟨?_, ?_⟩
      · unfold generateBezierPaths
        rw [if_neg (by rw [hr]; simp), if_pos hmm]
        simp [hr]
      · unfold simulatePhysicsMovements
        rw [if_neg (by rw [hr]; simp), if_pos hmm]
        simp [hr]
  · intro hr hs1 hs2
    subst hs1
    subst hs2
    refine ⟨?_, ?_⟩
    · unfold generateBezierPaths
      rw [if_neg (by rw [hr]; simp)]
      simp
    · unfold simulatePhysicsMovements
      rw [if_neg (by rw [hr]; simp)]
      simp

theorem runTrace_maxQueueSize (s : PoolState) (es : List PoolEvent) :
    (runTrace s es).maxQueueSize = s.maxQueueSize := by
  induction es generalizing s with
  | nil => rfl
  | cons e rest ih =>
    simp only [runTrace]
    rw [ih (step s e).1, step_maxQueueSize]

theorem runTrace_registry_length (s : PoolState) (es : List PoolEvent)
    (h : s.registry.length ≤ s.maxQueueSize) :
    (runTrace s es).registry.length ≤ s.maxQueueSize := by
  induction es generalizing s with
  | nil => exact h
  | cons e rest ih =>
    simp only [runTrace]
    have h1 := step_registry_length s e h
    have h2 := step_maxQueueSize s e
    have := ih (step s e).1 (by rw [h2]; exact h1)
    rw [step_maxQueueSize] at this
    exact this

theorem runTrace_registry_timers (s : PoolState) (es : List PoolEvent)
    (h : s.registry = s.timers) :
    (runTrace s es).registry = (runTrace s es).timers := by
  induction es generalizing s with
  | nil => exact h
  | cons e rest ih =>
    simp only [runTrace]
    exact ih (step s e).1 (step_registry_timers s e h)

theorem resolveMaxQueueSize_pos (o : Option Nat) : 1 ≤ resolveMaxQueueSize o := by
  match o with
  | none => simp [resolveMaxQueueSize]
  | some 0 => simp [resolveMaxQueueSize]
  | some (n + 1) => simp [resolveMaxQueueSize]

theorem mkPool_eq (opts : ThreadPoolOptions) (avail failed : Nat) :
    mkPool opts avail failed =
      { running := true,
        workers := determineThreadCount opts.jsThreads avail - failed,
        registry := [], timers := [], nextTaskId := 0,
        maxQueueSize := resolveMaxQueueSize opts.maxQueueSize,
        jsThreadCount := determineThreadCount opts.jsThreads avail } := rfl

/-- C1: every terminal delivery (result, task error, timeout, shutdown
rejection) happens only after the id's registry entry is removed, a worker
result message for an id with no pending entry leaves the state untouched
and is dropped (total function, hence no throw), and along any trace of
handler executions from a well-formed state each task id is resolved or
rejected at most once. -/
theorem task_resolution_at_most_once :
    (∀ (s : PoolState) (e : PoolEvent) (id : Nat),
        (step s e).2.deliversFor id = true → id ∉ (step s e).1.registry)
  ∧ (∀ (s : PoolState) (id : Nat) (isErr : Bool),
        id ∉ s.registry → step s (.workerResult id isErr) = (s, .droppedMsg))
  ∧ (∀ (s : PoolState) (id : Nat) (es : List PoolEvent),
        PoolWF s → countDeliveries s id es ≤ 1) :=
  ⟨fun s e id hd => (delivers_not_mem s e id hd).1,
   fun s id isErr h => by simp [step, resultStep, h],
   fun s id es hwf => countDeliveries_le_one s id hwf es⟩

/-- C3: shutting down a running pool clears the running flag, rejects every
pending entry with the shutting-down error, cancels all timers, empties the
registry and terminates every worker; shutting down a non-running pool is a
state-preserving no-op. -/
theorem shutdown_contract (s : PoolState) :
    (s.running = true →
        shutdownStep s =
          ({ s with running := false, registry := [], timers := [], workers := 0 },
           .rejectedMany s.registry .shuttingDown))
  ∧ (s.running = false → shutdownStep s = (s, .silent)) := by
  constructor
  · intro h
    simp [shutdownStep, h]
  · intro h
    simp [shutdownStep, h]

/-- C4: `scheduleTask` rejects immediately, with the state (registry, timers,
id counter) unchanged, when the pool is not running or the registry is at
`maxQueueSize`; consequently the registry size never exceeds `maxQueueSize`
along any trace. -/
theorem submit_fail_fast_queue_bound (s : PoolState) (postOk : Bool) :
    (s.running = false → scheduleStep s postOk = (s, .rejectedCall .poolNotRunning))
  ∧ (s.running = true → s.maxQueueSize ≤ s.registry.length →
        scheduleStep s postOk = (s, .rejectedCall .queueFull))
  ∧ (∀ e : PoolEvent, s.registry.length ≤ s.maxQueueSize →
        (step s e).1.registry.length ≤ (step s e).1.maxQueueSize)
  ∧ (∀ es : List PoolEvent, s.registry.length ≤ s.maxQueueSize →
        (runTrace s es).registry.length ≤ (runTrace s es).maxQueueSize) := by
  refine ⟨?_, ?_, ?_, ?_⟩
  · intro h
    simp [scheduleStep, h]
  · intro h1 h2
    simp [scheduleStep, h1, h2]
  · intro e h
    rw [step_maxQueueSize]
    exact step_registry_length s e h
  · intro es h
    rw [runTrace_maxQueueSize]
    exact runTrace_registry_length s es h

/-- C8: an absent, zero or negative worker-count request yields
`max(1, floor(available / 2))` threads, hence at least one; and with at
least one hardware thread available no request whatsoever produces a
configured thread count below one. -/
theorem worker_count_clamped :
    (∀ avail : Nat, determineThreadCount none avail = max 1 (avail / 2))
  ∧ (∀ (r : Int) (avail : Nat), r ≤ 0 →
        determineThreadCount (some r) avail = max 1 (avail / 2))
  ∧ (∀ (r : Int) (avail : Nat), r ≤ 0 →
        1 ≤ determineThreadCount (some r) avail)
  ∧ (∀ (req : Option Int) (avail : Nat), 1 ≤ avail →
        1 ≤ determineThreadCount req avail) := by
  refine ⟨?_, ?_, ?_, ?_⟩
  · intro avail
    rfl
  · intro r avail hr
    simp [determineThreadCount, hr]
  · intro r avail hr
    simp [determineThreadCount, hr]
  · intro req avail ha
    match req with
    | none => simp [determineThreadCount]
    | some r =>
      by_cases hr : r ≤ 0
      · simp [determineThreadCount, hr]
      · simp only [determineThreadCount, hr, if_false]
        omega

/-- C9: the pending registry and the set of live timers stay in lockstep
under every handler execution (an id is registered exactly while its timer
is live), both per step and along whole traces, and every delivery path
leaves neither a stale registry entry nor an orphaned timer for the
delivered id. -/
theorem registry_timer_coupling :
    (∀ (s : PoolState) (e : PoolEvent), s.registry = s.timers →
        (step s e).1.registry = (step s e).1.timers)
  ∧ (∀ (s : PoolState) (es : List PoolEvent), s.registry = s.timers →
        (runTrace s es).registry = (runTrace s es).timers)
  ∧ (∀ (s : PoolState) (e : PoolEvent) (id : Nat),
        (step s e).2.deliversFor id = true →
          id ∉ (step s e).1.registry ∧ id ∉ (step s e).1.timers) :=
  ⟨step_registry_timers, runTrace_registry_timers, delivers_not_mem⟩

/-- C10: the constructor starts the pool (running flag true immediately
after construction), a `scheduleTask` call on the freshly constructed pool
is never rejected for the pool not running, and `start()` on an
already-running pool returns immediately without reinitialising workers. -/
theorem constructor_starts_pool (opts : ThreadPoolOptions) (avail failed : Nat)
    (postOk : Bool) :
    (mkPool opts avail failed).running = true
  ∧ (scheduleStep (mkPool opts avail failed) postOk).2 ≠ .rejectedCall .poolNotRunning
  ∧ (∀ (s : PoolState) (f2 : Nat), s.running = true → startStep s f2 = (s, .silent)) := by
  refine ⟨rfl, ?_, ?_⟩
  · rw [mkPool_eq]
    simp only [scheduleStep]
    have hq : 1 ≤ resolveMaxQueueSize opts.maxQueueSize :=
      resolveMaxQueueSize_pos opts.maxQueueSize
    rw [if_neg (by simp), if_neg (by simp; omega)]
    split
    · simp
    · split <;> simp
  · intro s f2 h
    simp [startStep, h]

/-- C7 counterexample: with TypeScript and C++ both registered and carrying
equal benchmark scores, the selection loop of `benchmarkAndSelectBest` keeps
TypeScript — not C++ as the claimed preference-order tie-break would
require. -/
theorem benchmark_tie_keeps_typescript_cex :
    tieRegistered MathModuleType.cpp = true
  ∧ tieRegistered MathModuleType.typescript = true
  ∧ tieScores MathModuleType.cpp = tieScores MathModuleType.typescript
  ∧ selectBestModule tieRegistered tieScores = MathModuleType.typescript
  ∧ MathModuleType.typescript ≠ MathModuleType.cpp := by
  refine ⟨rfl, rfl, rfl, ?_, by decide⟩
  decide

/-- C7 (amended): `getBestAvailableType` returns the first registered kind in
the preference order C++ > Fortran > Python > TypeScript; the winner-selection
loop of `benchmarkAndSelectBest`, however, does not tie-break by that order:
it starts from TypeScript and replaces the best only on a strictly greater
score (iterating TypeScript, C++, Python, Fortran), so whenever all scores
are equal TypeScript is selected regardless of which kinds are registered. -/
theorem backend_selection_order :
    (∀ reg : MathModuleType → Bool,
        (reg MathModuleType.cpp = true → getBestAvailableType reg = MathModuleType.cpp)
      ∧ (reg MathModuleType.cpp = false → reg MathModuleType.fortran = true →
            getBestAvailableType reg = MathModuleType.fortran)
      ∧ (reg MathModuleType.cpp = false → reg MathModuleType.fortran = false →
            reg MathModuleType.python = true →
            getBestAvailableType reg = MathModuleType.python)
      ∧ (reg MathModuleType.cpp = false → reg MathModuleType.fortran = false →
            reg MathModuleType.python = false →
            getBestAvailableType reg = MathModuleType.typescript))
  ∧ (∀ (reg : MathModuleType → Bool) (res : MathModuleType → ℚ),
        res MathModuleType.cpp = res MathModuleType.typescript →
        res MathModuleType.python = res MathModuleType.typescript →
        res MathModuleType.fortran = res MathModuleType.typescript →
        selectBestModule reg res = MathModuleType.typescript) := by
  constructor
  · intro reg
    refine ⟨?_, ?_, ?_, ?_⟩
    · intro hc
      cases hts : reg MathModuleType.typescript <;>
        cases hpy : reg MathModuleType.python <;>
          cases hfo : reg MathModuleType.fortran <;>
            simp [getBestAvailableType, List.filter_cons, hc, hts, hpy, hfo,
              List.find?_cons_of_pos, List.find?_cons_of_neg]
    · intro hc hf
      cases hts : reg MathModuleType.typescript <;>
        cases hpy : reg MathModuleType.python <;>
          simp [getBestAvailableType, List.filter_cons, hc, hts, hpy, hf,
            List.find?_cons_of_pos, List.find?_cons_of_neg]
    · intro hc hf hp
      cases hts : reg MathModuleType.typescript <;>
        simp [getBestAvailableType, List.filter_cons, hc, hts, hp, hf,
          List.find?_cons_of_pos, List.find?_cons_of_neg]
    · intro hc hf hp
      cases hts : reg MathModuleType.typescript <;>
        simp [getBestAvailableType, List.filter_cons, hc, hts, hp, hf,
          List.find?_cons_of_pos, List.find?_cons_of_neg]
  · intro reg res hc hp hf
    simp only [selectBestModule, selectLoop, moduleEnumValues, hc, hp, hf,
      lt_irrefl, false_and, if_false]

/-- Witness for C1 at concrete states: delivering task 0's result removes it
from the registry, a result for the unknown id 7 is dropped unchanged, and a
duplicate result message trace delivers at most once. -/
theorem task_resolution_at_most_once_witness :
    0 ∉ (step pendingPool (.workerResult 0 false)).1.registry
  ∧ step stoppedPool (.workerResult 7 false) = (stoppedPool, .droppedMsg)
  ∧ countDeliveries examplePool 0
      [.schedule true, .workerResult 0 false, .workerResult 0 false] ≤ 1 :=
  ⟨task_resolution_at_most_once.1 pendingPool (.workerResult 0 false) 0 (by decide),
   task_resolution_at_most_once.2.1 stoppedPool 7 false (by decide),
   task_resolution_at_most_once.2.2 examplePool 0
     [.schedule true, .workerResult 0 false, .workerResult 0 false]
     (by intro k hk; simp [examplePool] at hk)⟩

/-- Witness for C3 at concrete states. -/
theorem shutdown_contract_witness :
    shutdownStep pendingPool =
      ({ pendingPool with running := false, registry := [], timers := [], workers := 0 },
       .rejectedMany pendingPool.registry .shuttingDown)
  ∧ shutdownStep stoppedPool = (stoppedPool, .silent) :=
  ⟨(shutdown_contract pendingPool).1 rfl, (shutdown_contract stoppedPool).2 rfl⟩

/-- Witness for C4 at concrete states. -/
theorem submit_fail_fast_queue_bound_witness :
    scheduleStep stoppedPool true = (stoppedPool, .rejectedCall .poolNotRunning)
  ∧ scheduleStep fullPool true = (fullPool, .rejectedCall .queueFull)
  ∧ (runTrace examplePool [.schedule true, .schedule true]).registry.length
      ≤ (runTrace examplePool [.schedule true, .schedule true]).maxQueueSize :=
  ⟨(submit_fail_fast_queue_bound stoppedPool true).1 rfl,
   (submit_fail_fast_queue_bound fullPool true).2.1 rfl (by decide),
   (submit_fail_fast_queue_bound examplePool true).2.2.2
     [.schedule true, .schedule true] (by decide)⟩

/-- Witness for C8 at concrete inputs. -/
theorem worker_count_clamped_witness :
    determineThreadCount none 8 = max 1 (8 / 2)
  ∧ determineThreadCount (some 0) 8 = max 1 (8 / 2)
  ∧ 1 ≤ determineThreadCount (some (-3)) 8
  ∧ 1 ≤ determineThreadCount (some 5) 2 :=
  ⟨worker_count_clamped.1 8,
   worker_count_clamped.2.1 0 8 (by decide),
   worker_count_clamped.2.2.1 (-3) 8 (by decide),
   worker_count_clamped.2.2.2 (some 5) 2 (by decide)⟩

/-- Witness for C9 at concrete states. -/
theorem registry_timer_coupling_witness :
    (step pendingPool (.timerFire 0)).1.registry = (step pendingPool (.timerFire 0)).1.timers
  ∧ (runTrace examplePool [.schedule true, .timerFire 0]).registry
      = (runTrace examplePool [.schedule true, .timerFire 0]).timers
  ∧ (0 ∉ (step pendingPool .shutdown).1.registry
      ∧ 0 ∉ (step pendingPool .shutdown).1.timers) :=
  ⟨registry_timer_coupling.1 pendingPool (.timerFire 0) rfl,
   registry_timer_coupling.2.1 examplePool [.schedule true, .timerFire 0] rfl,
   registry_timer_coupling.2.2 pendingPool .shutdown 0 (by decide)⟩

/-- Witness for C10 at concrete inputs. -/
theorem constructor_starts_pool_witness :
    (mkPool ⟨none, none, none⟩ 8 0).running = true
  ∧ (scheduleStep (mkPool ⟨none, none, none⟩ 8 0) true).2 ≠ .rejectedCall .poolNotRunning
  ∧ startStep examplePool 0 = (examplePool, .silent) :=
  ⟨(constructor_starts_pool ⟨none, none, none⟩ 8 0 true).1,
   (constructor_starts_pool ⟨none, none, none⟩ 8 0 true).2.1,
   (constructor_starts_pool ⟨none, none, none⟩ 8 0 true).2.2 examplePool 0 rfl⟩

/-- Witness for C7 at concrete tables: C++ wins the availability preference,
and a full tie makes the benchmark loop keep TypeScript. -/
theorem backend_selection_order_witness :
    getBestAvailableType tieRegistered = MathModuleType.cpp
  ∧ selectBestModule (fun _ => true) tieScores = MathModuleType.typescript :=
  ⟨(backend_selection_order.1 tieRegistered).1 rfl,
   backend_selection_order.2 (fun _ => true) tieScores rfl rfl rfl⟩

/-- Witness for C5 at a concrete failing native primitive. -/
theorem native_batch_failure_degrades_witness :
    (generateBezierPaths envFailing startsOne stopsOne optsSeeded 0
        (fun _ _ => 0)).result
      = (generateBezierPaths { envFailing with cppBatch := none } startsOne stopsOne
          optsSeeded 0 (fun _ _ => 0)).result
  ∧ (generateBezierPaths envFailing startsOne stopsOne optsSeeded 0
        (fun _ _ => 0)).nativeCalled = true
  ∧ (generateBezierPaths envFailing startsOne stopsOne optsSeeded 0
        (fun _ _ => 0)).tasksSubmitted
      = (generateBezierPaths { envFailing with cppBatch := none } startsOne stopsOne
          optsSeeded 0 (fun _ _ => 0)).tasksSubmitted :=
  native_batch_failure_degrades envFailing startsOne stopsOne optsSeeded 0 (fun _ _ => 0)
    failingBatch "native batch failed" rfl rfl rfl rfl (by decide) rfl

/-- Witness for C6 (amended) at concrete inputs. -/
theorem batch_validation_contract_witness :
    (generateBezierPaths envNoNative startsEx stopsOne optsSeeded 0 (fun _ _ => 0)
        = ⟨.error (if envNoNative.running = true then .lengthMismatch else .poolNotRunning),
           false, 0⟩
      ∧ simulatePhysicsMovements envNoNative startsEx stopsOne physOptsEx 0
        = ⟨.error (if envNoNative.running = true then .lengthMismatch else .poolNotRunning),
           false, 0⟩)
  ∧ (generateBezierPaths envNoNative [] [] optsSeeded 0 (fun _ _ => 0) = ⟨.ok [], false, 0⟩
      ∧ simulatePhysicsMovements envNoNative [] [] physOptsEx 0 = ⟨.ok [], false, 0⟩) :=
  ⟨(batch_validation_contract envNoNative startsEx stopsOne optsSeeded physOptsEx 0
      (fun _ _ => 0)).1 (by decide),
   (batch_validation_contract envNoNative ([] : List Point) ([] : List Point) optsSeeded
      physOptsEx 0 (fun _ _ => 0)).2 rfl rfl rfl⟩

/-- C6 counterexample: on a pool that is not running, a call with two empty
input arrays does not return the empty array; it fails with the
pool-not-running error, because the running check precedes the empty-input
short-circuit. -/
theorem empty_input_requires_running_pool_cex :
    (generateBezierPaths envStopped [] [] optsSeeded 0 (fun _ _ => 0)).result
        = .error .poolNotRunning
  ∧ (generateBezierPaths envStopped [] [] optsSeeded 0 (fun _ _ => 0)).result
        ≠ .ok [] := by
  constructor
  · rfl
  · intro h
    cases h

end MouseWont
